import Mathlib

/-!
# Chat view and transport function

A shallow embedding of `src/components/Chat.js` (the `Chat` component and its
`handleSubmit` handler) and of `src/services/api.js` (`sendChatMessage`).

JavaScript values are a first-order datatype `JVal`.  The handlers are
modelled by the ordered list of effects they perform (state-setter calls, the
HTTP POST, console output); the hook state is obtained by applying the setter
calls in the order in which they were issued.  The outcome of the POST and the
clock are inputs of the model.

Modelling conventions:
* strings are sequences of Unicode code points (`String`);
* numbers are integers (`0` is the falsy number);
* an object is an association list; reading a key yields its first binding.
-/

namespace Chat

/-! ## JavaScript values -/

/-- The JavaScript values that occur in the component: `undefined`, `null`,
booleans, numbers, strings, arrays and plain objects. -/
inductive JVal where
  | undefined
  | null
  | bool (b : Bool)
  | num (n : Int)
  | str (s : String)
  | arr (items : List JVal)
  | obj (fields : List (String × JVal))

mutual
/-- Equality of values is decidable. -/
def JVal.decEq : (a b : JVal) → Decidable (a = b)
  | .undefined, .undefined => isTrue rfl
  | .null, .null => isTrue rfl
  | .bool a, .bool b => if h : a = b then isTrue (by rw [h]) else isFalse (by intro h2; cases h2; exact h rfl)
  | .num a, .num b => if h : a = b then isTrue (by rw [h]) else isFalse (by intro h2; cases h2; exact h rfl)
  | .str a, .str b => if h : a = b then isTrue (by rw [h]) else isFalse (by intro h2; cases h2; exact h rfl)
  | .arr a, .arr b =>
    match JVal.decEqList a b with
    | isTrue h => isTrue (by rw [h])
    | isFalse h => isFalse (by intro h2; cases h2; exact h rfl)
  | .obj a, .obj b =>
    match JVal.decEqFields a b with
    | isTrue h => isTrue (by rw [h])
    | isFalse h => isFalse (by intro h2; cases h2; exact h rfl)
  | .undefined, .null => isFalse (by intro h; cases h)
  | .undefined, .bool _ => isFalse (by intro h; cases h)
  | .undefined, .num _ => isFalse (by intro h; cases h)
  | .undefined, .str _ => isFalse (by intro h; cases h)
  | .undefined, .arr _ => isFalse (by intro h; cases h)
  | .undefined, .obj _ => isFalse (by intro h; cases h)
  | .null, .undefined => isFalse (by intro h; cases h)
  | .null, .bool _ => isFalse (by intro h; cases h)
  | .null, .num _ => isFalse (by intro h; cases h)
  | .null, .str _ => isFalse (by intro h; cases h)
  | .null, .arr _ => isFalse (by intro h; cases h)
  | .null, .obj _ => isFalse (by intro h; cases h)
  | .bool _, .undefined => isFalse (by intro h; cases h)
  | .bool _, .null => isFalse (by intro h; cases h)
  | .bool _, .num _ => isFalse (by intro h; cases h)
  | .bool _, .str _ => isFalse (by intro h; cases h)
  | .bool _, .arr _ => isFalse (by intro h; cases h)
  | .bool _, .obj _ => isFalse (by intro h; cases h)
  | .num _, .undefined => isFalse (by intro h; cases h)
  | .num _, .null => isFalse (by intro h; cases h)
  | .num _, .bool _ => isFalse (by intro h; cases h)
  | .num _, .str _ => isFalse (by intro h; cases h)
  | .num _, .arr _ => isFalse (by intro h; cases h)
  | .num _, .obj _ => isFalse (by intro h; cases h)
  | .str _, .undefined => isFalse (by intro h; cases h)
  | .str _, .null => isFalse (by intro h; cases h)
  | .str _, .bool _ => isFalse (by intro h; cases h)
  | .str _, .num _ => isFalse (by intro h; cases h)
  | .str _, .arr _ => isFalse (by intro h; cases h)
  | .str _, .obj _ => isFalse (by intro h; cases h)
  | .arr _, .undefined => isFalse (by intro h; cases h)
  | .arr _, .null => isFalse (by intro h; cases h)
  | .arr _, .bool _ => isFalse (by intro h; cases h)
  | .arr _, .num _ => isFalse (by intro h; cases h)
  | .arr _, .str _ => isFalse (by intro h; cases h)
  | .arr _, .obj _ => isFalse (by intro h; cases h)
  | .obj _, .undefined => isFalse (by intro h; cases h)
  | .obj _, .null => isFalse (by intro h; cases h)
  | .obj _, .bool _ => isFalse (by intro h; cases h)
  | .obj _, .num _ => isFalse (by intro h; cases h)
  | .obj _, .str _ => isFalse (by intro h; cases h)
  | .obj _, .arr _ => isFalse (by intro h; cases h)
/-- Equality of arrays of values is decidable. -/
def JVal.decEqList : (a b : List JVal) → Decidable (a = b)
  | [], [] => isTrue rfl
  | [], _ :: _ => isFalse (by intro h; cases h)
  | _ :: _, [] => isFalse (by intro h; cases h)
  | x :: xs, y :: ys =>
    match JVal.decEq x y, JVal.decEqList xs ys with
    | isTrue h1, isTrue h2 => isTrue (by rw [h1, h2])
    | isFalse h1, _ => isFalse (by intro h; cases h; exact h1 rfl)
    | _, isFalse h2 => isFalse (by intro h; cases h; exact h2 rfl)
/-- Equality of property lists is decidable. -/
def JVal.decEqFields : (a b : List (String × JVal)) → Decidable (a = b)
  | [], [] => isTrue rfl
  | [], _ :: _ => isFalse (by intro h; cases h)
  | _ :: _, [] => isFalse (by intro h; cases h)
  | (k, x) :: xs, (l, y) :: ys =>
    if hk : k = l then
      match JVal.decEq x y, JVal.decEqFields xs ys with
      | isTrue h1, isTrue h2 => isTrue (by rw [hk, h1, h2])
      | isFalse h1, _ => isFalse (by intro h; cases h; exact h1 rfl)
      | _, isFalse h2 => isFalse (by intro h; cases h; exact h2 rfl)
    else isFalse (by intro h; cases h; exact hk rfl)
end

instance : DecidableEq JVal := JVal.decEq

/-- The value of an `Error` object as far as the view reads it: `error.message`
and, for an HTTP error, `error.response` with its `data` and `status`. -/
structure JsError where
  message : String
  response : Option (JVal × JVal)
  deriving DecidableEq

/-- The object `axios.post` resolves with; only `data` is read by the source. -/
structure Response where
  data : JVal
  deriving DecidableEq

/-- JavaScript `ToBoolean`. -/
def truthy : JVal → Bool
  | .undefined => false
  | .null => false
  | .bool b => b
  | .num n => n != 0
  | .str s => s.length != 0
  | .arr _ => true
  | .obj _ => true

/-- The expression `a || b`. -/
def jsOr (a b : JVal) : JVal :=
  if truthy a then a else b

/-- The own property `k` of a value, when it has one (plain objects only). -/
def JVal.field? : JVal → String → Option JVal
  | .obj fields, k => fields.lookup k
  | _, _ => none

/-- The member expression `v.k` for the keys the source reads from a response
body (`conversationId`, `text`, `citations`): reading from `null` or
`undefined` throws the engine's `TypeError`, a missing property reads as
`undefined`.  None of these keys is inherited from a prototype. -/
def getField (typeError : JVal → String → JsError) (v : JVal) (k : String) :
    Except JsError JVal :=
  match v with
  | .undefined => .error (typeError .undefined k)
  | .null => .error (typeError .null k)
  | v => .ok ((v.field? k).getD .undefined)

/-- Code points removed by `String.prototype.trim`: ECMAScript `WhiteSpace`
and `LineTerminator`. -/
def isJsWhiteSpace (c : Char) : Bool :=
  let n := c.toNat
  n == 0x9 || n == 0xA || n == 0xB || n == 0xC || n == 0xD || n == 0x20 ||
  n == 0xA0 || n == 0x1680 || (0x2000 ≤ n && n ≤ 0x200A) || n == 0x2028 ||
  n == 0x2029 || n == 0x202F || n == 0x205F || n == 0x3000 || n == 0xFEFF

/-- The method `String.prototype.trim`. -/
def jsTrim (s : String) : String :=
  String.mk ((s.data.dropWhile isJsWhiteSpace).reverse.dropWhile isJsWhiteSpace).reverse

/-! ## Hook state and effects -/

/-- The four `useState` cells of `Chat`. -/
structure State where
  messages : List JVal
  input : String
  isLoading : Bool
  conversationId : JVal
  deriving DecidableEq

/-- The initial values passed to `useState`. -/
def initialState : State :=
  { messages := [], input := "", isLoading := false, conversationId := .null }

/-- A call of one of the state setters. -/
inductive Update where
  /-- The call `setMessages(value)`. -/
  | setMessages (value : List JVal)
  /-- The call `setMessages(prev => [...prev, message])`. -/
  | appendMessage (message : JVal)
  | setInput (value : String)
  | setIsLoading (value : Bool)
  | setConversationId (value : JVal)
  deriving DecidableEq

/-- What a console call prints after its label. -/
inductive Logged where
  | value (v : JVal)
  | error (e : JsError)
  deriving DecidableEq

/-- The observable effects of the handlers, in program order. -/
inductive Effect where
  | preventDefault
  | setState (u : Update)
  | post (url : JVal) (body : JVal)
  | consoleLog (label : String) (arg : Logged)
  | consoleError (label : String) (arg : Logged)
  deriving DecidableEq

/-- The state after one setter call has been processed. -/
def applyUpdate (s : State) : Update → State
  | .setMessages value => { s with messages := value }
  | .appendMessage message => { s with messages := s.messages ++ [message] }
  | .setInput value => { s with input := value }
  | .setIsLoading value => { s with isLoading := value }
  | .setConversationId value => { s with conversationId := value }

/-- The state after one effect; only setter calls change it. -/
def step (s : State) : Effect → State
  | .setState u => applyUpdate s u
  | _ => s

/-- The state after a list of effects, setter calls processed in issue order. -/
def commit (s : State) (effects : List Effect) : State :=
  effects.foldl step s

/-- Whether an effect is an HTTP request. -/
def Effect.isPost : Effect → Bool
  | .post _ _ => true
  | _ => false

/-- Whether an effect is a state-setter call. -/
def Effect.isSetState : Effect → Bool
  | .setState _ => true
  | _ => false

/-! ## The environment of one invocation -/

/-- What a handler invocation reads from outside the component. -/
structure Env where
  /-- The value of `process.env.REACT_APP_API_ENDPOINT`. -/
  API_ENDPOINT : JVal
  /-- The `TypeError` raised by reading property `k` of `null` or `undefined`. -/
  typeError : JVal → String → JsError
  /-- The value of `Date.now()`. -/
  now : Nat
  /-- The settlement of `axios.post(url, body)`. -/
  axiosPost : JVal → JVal → Except JsError Response

/-! ## `Chat.js` -/

/-- The object literal `userMessage` of `handleSubmit`. -/
def userMessage (input : String) : JVal :=
  .obj [("type", .str "user"), ("content", .str input)]

/-- The request body literal of `handleSubmit`. -/
def requestBody (now : Nat) (input : String) (conversationId : JVal) : JVal :=
  .obj [("query", .str input), ("conversationId", conversationId),
        ("userId", .str ("user-" ++ toString now))]

/-- The object literal `botResponse` of `handleSubmit`. -/
def botResponse (text citations : JVal) : JVal :=
  .obj [("type", .str "bot"), ("content", text),
        ("citations", jsOr citations (.arr []))]

/-- The object literal `errorMessage` of `handleSubmit`. -/
def errorMessage (error : JsError) : JVal :=
  .obj [("type", .str "bot"),
        ("content", .str ("Sorry, I encountered an error: " ++ error.message ++
          ". Please try again."))]

/-- Whether the guard `if (!input.trim()) return;` lets the handler continue. -/
def passesGuard (r : State) : Bool :=
  truthy (.str (jsTrim r.input))

/-- The statements of `handleSubmit` from its start to the `await`: the guard,
the three setter calls, the log line and the POST.  The argument `r` holds the
values of the render whose closure the handler is. -/
def handleSubmitBefore (env : Env) (r : State) : List Effect :=
  if !passesGuard r then
    [.preventDefault]
  else
    [.preventDefault,
     .setState (.setMessages (r.messages ++ [userMessage r.input])),
     .setState (.setInput ""),
     .setState (.setIsLoading true),
     .consoleLog "Sending request to:" (.value env.API_ENDPOINT),
     .post env.API_ENDPOINT (requestBody env.now r.input r.conversationId)]

/-- The rest of the `try` block once the POST has settled: the effects
performed and the exception that leaves the block, if any. -/
def tryBlock (env : Env) (settled : Except JsError Response) :
    List Effect × Option JsError :=
  match settled with
  | .error e => ([], some e)
  | .ok response =>
    let log := Effect.consoleLog "Received response:" (.value response.data)
    match getField env.typeError response.data "conversationId" with
    | .error e => ([log], some e)
    | .ok cid =>
      match getField env.typeError response.data "text" with
      | .error e => ([log, .setState (.setConversationId cid)], some e)
      | .ok text =>
        match getField env.typeError response.data "citations" with
        | .error e => ([log, .setState (.setConversationId cid)], some e)
        | .ok citations =>
          ([log, .setState (.setConversationId cid),
            .setState (.appendMessage (botResponse text citations))], none)

/-- The `catch` block of `handleSubmit`. -/
def catchBlock (error : JsError) : List Effect :=
  [.consoleError "Error calling API:" (.error error)] ++
  (match error.response with
   | some (data, status) =>
     [.consoleError "Response data:" (.value data),
      .consoleError "Response status:" (.value status)]
   | none => []) ++
  [.setState (.appendMessage (errorMessage error))]

/-- The `finally` block of `handleSubmit`. -/
def finallyBlock : List Effect :=
  [.setState (.setIsLoading false)]

/-- The statements of `handleSubmit` after the `await`. -/
def handleSubmitAfter (env : Env) (settled : Except JsError Response) : List Effect :=
  let (effects, thrown) := tryBlock env settled
  effects ++
  (match thrown with
   | some e => catchBlock e
   | none => []) ++
  finallyBlock

/-- The settlement of the POST issued from render `r`. -/
def settlement (env : Env) (r : State) : Except JsError Response :=
  env.axiosPost env.API_ENDPOINT (requestBody env.now r.input r.conversationId)

/-- The continuation of `handleSubmit` that runs when the POST issued from
render `r` has settled; there is none when the guard returned. -/
def handleSubmitRest (env : Env) (r : State) : List Effect :=
  if !passesGuard r then
    []
  else
    handleSubmitAfter env (settlement env r)

/-- One run of `handleSubmit` from render `r` to completion. -/
def handleSubmit (env : Env) (r : State) : List Effect :=
  handleSubmitBefore env r ++ handleSubmitRest env r

/-- The `onChange` handler of the input control. -/
def handleChange (value : String) : List Effect :=
  [.setState (.setInput value)]

/-- The state after a completed `handleSubmit` started from a settled state,
whose render is the closure of the handler. -/
def submit (env : Env) (s : State) : State :=
  commit s (handleSubmit env s)

/-! ## `api.js` -/

/-- The function `sendChatMessage` of `api.js`: the effects performed, and the
value returned or the error thrown. -/
def sendChatMessage (API_ENDPOINT : JVal)
    (axiosPost : JVal → JVal → Except JsError Response)
    (query conversationId userId : JVal) : List Effect × Except JsError JVal :=
  let body := JVal.obj [("query", query), ("conversationId", conversationId),
                        ("userId", userId)]
  match axiosPost API_ENDPOINT body with
  | .ok response => ([.post API_ENDPOINT body], .ok response.data)
  | .error error =>
    ([.post API_ENDPOINT body, .consoleError "API Error:" (.error error)], .error error)

/-! ## Sequences of submissions -/

/-- One turn of the user: the text typed into the input control, and the
environment in which the submission then runs. -/
structure Submission where
  typed : String
  env : Env

/-- The state after typing `x.typed` and a completed `handleSubmit`. -/
def turn (s : State) (x : Submission) : State :=
  submit x.env (commit s (handleChange x.typed))

/-- The POSTs among a list of effects, each with its request body and its
settlement. -/
def exchanges (env : Env) : List Effect → List (JVal × Except JsError Response)
  | [] => []
  | .post url body :: es => (body, env.axiosPost url body) :: exchanges env es
  | _ :: es => exchanges env es

/-- The request bodies sent and settlements received over a sequence of
completed turns, oldest first. -/
def wire (s : State) : List Submission → List (JVal × Except JsError Response)
  | [] => []
  | x :: xs =>
    exchanges x.env (handleSubmit x.env (commit s (handleChange x.typed))) ++
      wire (turn s x) xs

/-- The message list never loses an entry along a list of effects: before
each effect it is a prefix of what it is after the effect. -/
def AppendOnly : State → List Effect → Prop
  | _, [] => True
  | s, e :: es => s.messages <+: (step s e).messages ∧ AppendOnly (step s e) es

/-- Whether a list of effects is append-only can be computed. -/
def AppendOnly.decide : (s : State) → (es : List Effect) → Decidable (AppendOnly s es)
  | _, [] => isTrue trivial
  | s, e :: es =>
    match (inferInstance : Decidable (s.messages <+: (step s e).messages)),
      AppendOnly.decide (step s e) es with
    | isTrue h1, isTrue h2 => isTrue ⟨h1, h2⟩
    | isFalse h1, _ => isFalse fun h => h1 h.1
    | _, isFalse h2 => isFalse fun h => h2 h.2

instance (s : State) (es : List Effect) : Decidable (AppendOnly s es) :=
  AppendOnly.decide s es

/-! ## The behaviour the specification describes -/

/-- The conversation id a settled request returned: the `conversationId` of
the body of a response that was handled as a success. -/
def returnedConversationId : Except JsError Response → Option JVal
  | .error _ => none
  | .ok response =>
    match response.data with
    | .null => none
    | .undefined => none
    | data => some ((data.field? "conversationId").getD .undefined)

/-- The conversation id the specification expects a request to echo, given
the exchanges before it: the one returned by the most recent successful
response, `null` when there is none. -/
def expectedEcho (earlier : List (JVal × Except JsError Response)) : JVal :=
  ((earlier.reverse.filterMap (fun x => returnedConversationId x.2)).head?).getD .null

/-- The echo expected from a view that already holds conversation id `held`
before the exchanges `earlier`. -/
def expectedEchoFrom (held : JVal) (earlier : List (JVal × Except JsError Response)) : JVal :=
  ((earlier.reverse.filterMap (fun x => returnedConversationId x.2)).head?).getD held

/-- Whether an effect replaces the message list by a value computed from a
render, as `setMessages(value)` does. -/
def Effect.replacesMessages : Effect → Bool
  | .setState (.setMessages _) => true
  | _ => false

/-! ## Scenarios -/

/-- An environment whose service answers every request with `data`. -/
def answering (data : JVal) : Env :=
  { API_ENDPOINT := .str "https://qa.example/chat"
    typeError := fun _ k => { message := "Cannot read properties (reading " ++ k ++ ")",
                              response := none }
    now := 1700000000000
    axiosPost := fun _ _ => .ok { data := data } }

/-- An environment whose every request is rejected with `error`. -/
def rejecting (error : JsError) : Env :=
  { API_ENDPOINT := .str "https://qa.example/chat"
    typeError := fun _ k => { message := "Cannot read properties (reading " ++ k ++ ")",
                              response := none }
    now := 1700000000000
    axiosPost := fun _ _ => .error error }

/-- A settled view in which `text` has been typed. -/
def typedState (text : String) : State :=
  { initialState with input := text }

/-- The success response of the pressure-rating scenario. -/
def pressureAnswer : JVal :=
  .obj [("conversationId", .str "c1"), ("text", .str "150 psi"),
        ("citations", .arr [.obj [("title", .str "Spec A"),
                                  ("snippet", .str "rated to 150 psi")]])]

/-- The rejection of the network-failure scenario. -/
def networkError : JsError :=
  { message := "Network Error", response := none }

/-- A success response without a `citations` field. -/
def bareAnswer : JVal :=
  .obj [("conversationId", .str "c2"), ("text", .str "No sources found")]

/-- A success response whose `citations` field is a number. -/
def numberCitationsAnswer : JVal :=
  .obj [("conversationId", .str "c3"), ("text", .str "See the manual"),
        ("citations", .num 5)]

/-- A success response whose `citations` field is `null`. -/
def nullCitationsAnswer : JVal :=
  .obj [("conversationId", .str "c4"), ("text", .str "See the manual"),
        ("citations", .null)]

/-- Four turns: an answered question, a blank submission, a rejected
question and a further question. -/
def fourTurns : List Submission :=
  [{ typed := "What is the max pressure rating?", env := answering pressureAnswer },
   { typed := "   ", env := answering bareAnswer },
   { typed := "And the minimum?", env := rejecting networkError },
   { typed := "Retry", env := answering bareAnswer }]

end Chat

namespace Chat

/-! ## Auxiliary facts -/

theorem commit_append (s : State) (a b : List Effect) :
    commit s (a ++ b) = commit (commit s a) b := by
  simp [commit, List.foldl_append]

theorem truthy_str (t : String) : truthy (.str t) = true ↔ t ≠ "" := by
  have h : t.length = 0 ↔ t = "" := by
    constructor
    · intro h0
      apply String.ext
      exact List.length_eq_zero.mp h0
    · intro h0
      subst h0
      rfl
  simp [truthy, h]

theorem passesGuard_iff (s : State) : passesGuard s = true ↔ jsTrim s.input ≠ "" := by
  simp [passesGuard, truthy_str]

theorem dropWhile_eq_nil_of_all {α : Type} (p : α → Bool) :
    ∀ l : List α, l.all p = true → l.dropWhile p = []
  | [], _ => rfl
  | a :: l, h => by
    simp only [List.all_cons, Bool.and_eq_true] at h
    simp [List.dropWhile_cons, h.1, dropWhile_eq_nil_of_all p l h.2]

theorem jsTrim_of_all_whitespace (t : String) (h : t.data.all isJsWhiteSpace = true) :
    jsTrim t = "" := by
  simp [jsTrim, dropWhile_eq_nil_of_all isJsWhiteSpace t.data h]

theorem handleSubmit_of_guard (env : Env) (s : State) (h : passesGuard s = true) :
    handleSubmit env s =
      [.preventDefault,
       .setState (.setMessages (s.messages ++ [userMessage s.input])),
       .setState (.setInput ""),
       .setState (.setIsLoading true),
       .consoleLog "Sending request to:" (.value env.API_ENDPOINT),
       .post env.API_ENDPOINT (requestBody env.now s.input s.conversationId)] ++
      handleSubmitAfter env (settlement env s) := by
  simp [handleSubmit, handleSubmitBefore, handleSubmitRest, h]

theorem handleSubmit_of_not_guard (env : Env) (s : State) (h : passesGuard s = false) :
    handleSubmit env s = [.preventDefault] := by
  simp [handleSubmit, handleSubmitBefore, handleSubmitRest, h]

theorem commit_catchBlock (s : State) (e : JsError) :
    commit s (catchBlock e) = { s with messages := s.messages ++ [errorMessage e] } := by
  cases e with
  | mk message response =>
    cases response with
    | none => rfl
    | some p => rfl

theorem handleSubmitAfter_error (env : Env) (e : JsError) :
    handleSubmitAfter env (.error e) = catchBlock e ++ finallyBlock := by
  simp [handleSubmitAfter, tryBlock]

/-- The state after a completed submission whose POST was rejected. -/
theorem submit_of_rejected (env : Env) (s : State) (e : JsError)
    (hg : passesGuard s = true) (hr : settlement env s = .error e) :
    submit env s =
      { messages := s.messages ++ [userMessage s.input, errorMessage e],
        input := "", isLoading := false, conversationId := s.conversationId } := by
  rw [submit, handleSubmit_of_guard env s hg, hr, handleSubmitAfter_error,
    commit_append, commit_append, commit_catchBlock]
  simp [commit, step, applyUpdate, finallyBlock]

/-- Reading a property of a value other than `null` and `undefined`. -/
theorem getField_of_value (typeError : JVal → String → JsError) (data : JVal) (k : String)
    (hnull : data ≠ .null) (hundef : data ≠ .undefined) :
    getField typeError data k = .ok ((data.field? k).getD .undefined) := by
  cases data <;> first | rfl | exact absurd rfl hnull | exact absurd rfl hundef

/-- The `try` block on a response whose body is neither `null` nor `undefined`. -/
theorem tryBlock_of_value (env : Env) (data : JVal)
    (hnull : data ≠ .null) (hundef : data ≠ .undefined) :
    tryBlock env (.ok { data := data }) =
      ([.consoleLog "Received response:" (.value data),
        .setState (.setConversationId ((data.field? "conversationId").getD .undefined)),
        .setState (.appendMessage (botResponse ((data.field? "text").getD .undefined)
          ((data.field? "citations").getD .undefined)))], none) := by
  simp [tryBlock, getField_of_value env.typeError data _ hnull hundef]

/-- The `try` block on a response whose body is `null` or `undefined`. -/
theorem tryBlock_of_nullish (env : Env) (data : JVal)
    (h : data = .null ∨ data = .undefined) :
    tryBlock env (.ok { data := data }) =
      ([.consoleLog "Received response:" (.value data)],
        some (env.typeError data "conversationId")) := by
  rcases h with h | h <;> subst h <;> rfl

/-- Effects performed by a `try` block that throws leave the messages alone. -/
theorem tryBlock_thrown_messages (env : Env) (settled : Except JsError Response)
    (e : JsError) (s : State) (h : (tryBlock env settled).2 = some e) :
    commit s (tryBlock env settled).1 = s := by
  cases settled with
  | error e0 => simp [tryBlock, commit]
  | ok response =>
    obtain ⟨data⟩ := response
    by_cases hnull : data = .null
    · rw [tryBlock_of_nullish env data (Or.inl hnull)]
      rfl
    · by_cases hundef : data = .undefined
      · rw [tryBlock_of_nullish env data (Or.inr hundef)]
        rfl
      · rw [tryBlock_of_value env data hnull hundef] at h
        simp at h

/-- The state after a completed submission whose `try` block throws. -/
theorem submit_of_thrown (env : Env) (s : State) (e : JsError)
    (hg : passesGuard s = true) (h : (tryBlock env (settlement env s)).2 = some e) :
    submit env s =
      { messages := s.messages ++ [userMessage s.input, errorMessage e],
        input := "", isLoading := false, conversationId := s.conversationId } := by
  have hkeep := tryBlock_thrown_messages env (settlement env s) e
  rw [submit, handleSubmit_of_guard env s hg, commit_append]
  simp only [handleSubmitAfter, h]
  rw [commit_append, commit_append, hkeep _ h, commit_catchBlock]
  simp [commit, step, applyUpdate, finallyBlock]

/-- The state after a completed submission whose response body is neither
`null` nor `undefined`. -/
theorem submit_of_value (env : Env) (s : State) (data : JVal)
    (hg : passesGuard s = true) (hr : settlement env s = .ok { data := data })
    (hnull : data ≠ .null) (hundef : data ≠ .undefined) :
    submit env s =
      { messages := s.messages ++ [userMessage s.input,
          botResponse ((data.field? "text").getD .undefined)
            ((data.field? "citations").getD .undefined)],
        input := "", isLoading := false,
        conversationId := (data.field? "conversationId").getD .undefined } := by
  rw [submit, handleSubmit_of_guard env s hg, hr]
  simp [handleSubmitAfter, tryBlock_of_value env data hnull hundef, commit, step,
    applyUpdate, finallyBlock]

/-- The state after a completed submission whose response body is an object. -/
theorem submit_of_object (env : Env) (s : State) (fields : List (String × JVal))
    (hg : passesGuard s = true) (hr : settlement env s = .ok { data := .obj fields }) :
    submit env s =
      { messages := s.messages ++ [userMessage s.input,
          botResponse ((fields.lookup "text").getD .undefined)
            ((fields.lookup "citations").getD .undefined)],
        input := "", isLoading := false,
        conversationId := (fields.lookup "conversationId").getD .undefined } :=
  submit_of_value env s (.obj fields) hg hr (by simp) (by simp)

/-- The state after a submission that stops at the guard. -/
theorem submit_of_not_guard (env : Env) (s : State) (h : passesGuard s = false) :
    submit env s = s := by
  rw [submit, handleSubmit_of_not_guard env s h]
  rfl

/-! ## Submission outcomes -/

/-- C1: from any view state whose trimmed input is non-empty, a completed
`handleSubmit` whose POST resolves with a body holding `conversationId: c`,
`text: t` and a citation list `cs` leaves the previous messages followed by the
user message and the bot message `{type, content: t, citations: cs}`, and leaves
`conversationId` equal to `c`. -/
theorem handleSubmit_success (env : Env) (s : State) (data c t : JVal) (cs : List JVal)
    (hinput : jsTrim s.input ≠ "")
    (hresp : settlement env s = .ok { data := data })
    (hc : data.field? "conversationId" = some c)
    (ht : data.field? "text" = some t)
    (hcs : data.field? "citations" = some (.arr cs)) :
    (submit env s).messages = s.messages ++
      [.obj [("type", .str "user"), ("content", .str s.input)],
       .obj [("type", .str "bot"), ("content", t), ("citations", .arr cs)]] ∧
    (submit env s).conversationId = c := by
  have hg := (passesGuard_iff s).mpr hinput
  cases data with
  | obj fields =>
    simp only [JVal.field?] at hc ht hcs
    rw [submit_of_object env s fields hg hresp]
    simp [hc, ht, hcs, botResponse, userMessage, jsOr, truthy]
  | _ => simp [JVal.field?] at hc

/-- The pressure-rating scenario of the specification. -/
theorem handleSubmit_success_scenario :
    (submit (answering pressureAnswer) (typedState "What is the max pressure rating?")).messages =
      [] ++ [.obj [("type", .str "user"), ("content", .str "What is the max pressure rating?")],
       .obj [("type", .str "bot"), ("content", .str "150 psi"),
             ("citations", .arr [.obj [("title", .str "Spec A"),
                                       ("snippet", .str "rated to 150 psi")]])]] ∧
    (submit (answering pressureAnswer)
      (typedState "What is the max pressure rating?")).conversationId = .str "c1" :=
  handleSubmit_success (answering pressureAnswer)
    (typedState "What is the max pressure rating?") pressureAnswer (.str "c1") (.str "150 psi")
    [.obj [("title", .str "Spec A"), ("snippet", .str "rated to 150 psi")]]
    (by decide) rfl rfl rfl rfl

/-- C2: from any view state whose trimmed input is non-empty, a completed
`handleSubmit` whose POST is rejected with error `e` appends exactly two
messages, the user message `{type: "user", content: input}` and then one bot
error message `{type: "bot", content}` whose content is the apology text around
`e.message`, and leaves `conversationId` as it was. -/
theorem handleSubmit_failure (env : Env) (s : State) (e : JsError)
    (hinput : jsTrim s.input ≠ "")
    (hrej : settlement env s = .error e) :
    (submit env s).messages = s.messages ++
      [.obj [("type", .str "user"), ("content", .str s.input)],
       .obj [("type", .str "bot"),
             ("content", .str ("Sorry, I encountered an error: " ++ e.message ++
               ". Please try again."))]] ∧
    (submit env s).conversationId = s.conversationId := by
  rw [submit_of_rejected env s e ((passesGuard_iff s).mpr hinput) hrej]
  simp [userMessage, errorMessage]

/-- A rejected submission in a view that already holds a conversation: the
two messages appended after the earlier one, and the id kept. -/
theorem handleSubmit_failure_scenario :
    (submit (rejecting networkError)
        { messages := [userMessage "hello"], input := "ping", isLoading := false,
          conversationId := .str "c1" }).messages =
      [userMessage "hello"] ++
      [.obj [("type", .str "user"), ("content", .str "ping")],
       .obj [("type", .str "bot"),
             ("content",
               .str "Sorry, I encountered an error: Network Error. Please try again.")]] ∧
    (submit (rejecting networkError)
        { messages := [userMessage "hello"], input := "ping", isLoading := false,
          conversationId := .str "c1" }).conversationId = .str "c1" :=
  handleSubmit_failure (rejecting networkError)
    { messages := [userMessage "hello"], input := "ping", isLoading := false,
      conversationId := .str "c1" } networkError (by decide) rfl

/-- C3: when a submission fails with an error whose message text is `m`
(the POST is rejected, or reading the response throws), the bot message that
`handleSubmit` appends is `{type: "bot", content}` with `content` exactly
`"Sorry, I encountered an error: " ++ m ++ ". Please try again."`. -/
theorem handleSubmit_error_content (env : Env) (s : State) (e : JsError) (m : String)
    (hinput : jsTrim s.input ≠ "")
    (hthrown : (tryBlock env (settlement env s)).2 = some e)
    (hm : e.message = m) :
    (submit env s).messages = s.messages ++
      [userMessage s.input,
       .obj [("type", .str "bot"),
             ("content", .str ("Sorry, I encountered an error: " ++ m ++
               ". Please try again."))]] := by
  rw [submit_of_thrown env s e ((passesGuard_iff s).mpr hinput) hthrown]
  simp [errorMessage, hm]

/-- The network-failure scenario of the specification. -/
theorem handleSubmit_error_content_scenario :
    (submit (rejecting networkError) (typedState "status?")).messages = [] ++
      [userMessage "status?",
       .obj [("type", .str "bot"),
             ("content",
               .str "Sorry, I encountered an error: Network Error. Please try again.")]] :=
  handleSubmit_error_content (rejecting networkError) (typedState "status?") networkError
    "Network Error" (by decide) rfl rfl

/-- C4: when the input is empty or holds only whitespace, `handleSubmit`
issues no request, calls no state setter, and leaves `messages`, `input`,
`isLoading` and `conversationId` unchanged. -/
theorem handleSubmit_blank_noop (env : Env) (s : State)
    (hblank : s.input.data.all isJsWhiteSpace = true) :
    (handleSubmit env s).all (fun e => !e.isPost && !e.isSetState) = true ∧
    submit env s = s := by
  have hg : passesGuard s = false := by
    simp [passesGuard, jsTrim_of_all_whitespace s.input hblank, truthy]
  rw [submit_of_not_guard env s hg, handleSubmit_of_not_guard env s hg]
  exact ⟨rfl, rfl⟩

/-- A whitespace-only submission in a view that already holds a conversation. -/
theorem handleSubmit_blank_noop_scenario :
    (handleSubmit (answering pressureAnswer)
        { messages := [userMessage "hello"], input := " \t\n", isLoading := false,
          conversationId := .str "c1" }).all
      (fun e => !e.isPost && !e.isSetState) = true ∧
    submit (answering pressureAnswer)
        { messages := [userMessage "hello"], input := " \t\n", isLoading := false,
          conversationId := .str "c1" } =
      { messages := [userMessage "hello"], input := " \t\n", isLoading := false,
        conversationId := .str "c1" } :=
  handleSubmit_blank_noop (answering pressureAnswer)
    { messages := [userMessage "hello"], input := " \t\n", isLoading := false,
      conversationId := .str "c1" } (by decide)

/-! ## Loading flag -/

/-- The `finally` block runs last and clears the loading flag. -/
theorem commit_handleSubmitAfter_isLoading (env : Env) (settled : Except JsError Response)
    (s : State) : (commit s (handleSubmitAfter env settled)).isLoading = false := by
  have h : handleSubmitAfter env settled =
      ((tryBlock env settled).1 ++
        (match (tryBlock env settled).2 with
         | some e => catchBlock e
         | none => [])) ++ finallyBlock := by
    simp [handleSubmitAfter]
  rw [h, commit_append]
  rfl

/-- C5: `isLoading` starts false; a `handleSubmit` that passes the guard has
set it to true by the time it issues its request, and it is false once the
handler has completed, however the request settles and whether or not reading
the response throws; a submission stopped by the guard calls no setter and so
leaves the flag as it was. -/
theorem isLoading_lifecycle (env : Env) (s : State) :
    initialState.isLoading = false ∧
    (passesGuard s = true →
      (∃ before after,
        handleSubmit env s = before ++
          Effect.post env.API_ENDPOINT (requestBody env.now s.input s.conversationId) ::
            after ∧
        before.all (fun e => !e.isPost) = true ∧
        (commit s before).isLoading = true) ∧
      (submit env s).isLoading = false) ∧
    (passesGuard s = false →
      (handleSubmit env s).all (fun e => !e.isSetState) = true ∧
      (submit env s).isLoading = s.isLoading) := by
  refine ⟨rfl, ?_, ?_⟩
  · intro hg
    refine ⟨⟨[Effect.preventDefault,
         .setState (.setMessages (s.messages ++ [userMessage s.input])),
         .setState (.setInput ""),
         .setState (.setIsLoading true),
         .consoleLog "Sending request to:" (.value env.API_ENDPOINT)],
        handleSubmitAfter env (settlement env s), ?_, ?_, ?_⟩, ?_⟩
    · rw [handleSubmit_of_guard env s hg]
      rfl
    · rfl
    · rfl
    · rw [submit, handleSubmit_of_guard env s hg, commit_append]
      exact commit_handleSubmitAfter_isLoading env _ _
  · intro hg
    rw [submit_of_not_guard env s hg, handleSubmit_of_not_guard env s hg]
    exact ⟨rfl, rfl⟩

/-- The loading flag over a submission whose response body is `null`, so that
reading it throws, and over a blank submission. -/
theorem isLoading_lifecycle_scenario :
    (submit (answering .null) (typedState "ping")).isLoading = false ∧
    (submit (answering .null) (typedState "  ")).isLoading = false :=
  ⟨((isLoading_lifecycle (answering .null) (typedState "ping")).2.1 (by decide)).2,
   ((isLoading_lifecycle (answering .null) (typedState "  ")).2.2 (by decide)).2⟩

/-! ## Citations -/

/-- C6: when the POST resolves with a body that has no `citations` field, the
bot message appended by `handleSubmit` has a `citations` field holding the
empty list, and the submission takes the success path: the `try` block throws
nothing and the two appended messages are the user message and that bot
message. -/
theorem absent_citations_default (env : Env) (s : State) (data : JVal)
    (hinput : jsTrim s.input ≠ "")
    (hresp : settlement env s = .ok { data := data })
    (hnull : data ≠ .null) (hundef : data ≠ .undefined)
    (habsent : data.field? "citations" = none) :
    (submit env s).messages = s.messages ++
      [userMessage s.input,
       .obj [("type", .str "bot"), ("content", (data.field? "text").getD .undefined),
             ("citations", .arr [])]] ∧
    ((submit env s).messages.getLast?.bind fun m => m.field? "citations") = some (.arr []) ∧
    (tryBlock env (settlement env s)).2 = none ∧
    (submit env s).conversationId = (data.field? "conversationId").getD .undefined := by
  have hg := (passesGuard_iff s).mpr hinput
  rw [submit_of_value env s data hg hresp hnull hundef, hresp,
    tryBlock_of_value env data hnull hundef, habsent]
  refine ⟨by simp [botResponse, jsOr, truthy], ?_, rfl, rfl⟩
  simp [botResponse, jsOr, truthy, JVal.field?, List.lookup]

/-- A submission answered without a `citations` field. -/
theorem absent_citations_default_scenario :
    (submit (answering bareAnswer) (typedState "Any sources?")).messages = [] ++
      [userMessage "Any sources?",
       .obj [("type", .str "bot"), ("content", .str "No sources found"),
             ("citations", .arr [])]] :=
  (absent_citations_default (answering bareAnswer) (typedState "Any sources?") bareAnswer
    (by decide) rfl (by simp [bareAnswer]) (by simp [bareAnswer]) rfl).1

/-- C7, as stated, fails: a response whose `citations` field is the number `5`
yields a bot message whose `citations` are `5`, not the empty list. -/
theorem truthy_citations_kept :
    ((submit (answering numberCitationsAnswer) (typedState "Where?")).messages.getLast?.bind
        fun m => m.field? "citations") = some (.num 5) ∧
    ((submit (answering numberCitationsAnswer) (typedState "Where?")).messages.getLast?.bind
        fun m => m.field? "citations") ≠ some (.arr []) := by
  have h : ((submit (answering numberCitationsAnswer)
      (typedState "Where?")).messages.getLast?.bind fun m => m.field? "citations") =
      some (.num 5) := by
    rfl
  exact ⟨h, by rw [h]; simp⟩

/-- C7, amended: when the POST resolves with an object body whose `citations`
field holds `v`, `handleSubmit` takes the success path and appends a bot message
whose `citations` are the empty list when `v` is falsy and `v` itself when `v`
is truthy. -/
theorem citations_default_when_falsy (env : Env) (s : State)
    (fields : List (String × JVal)) (v : JVal)
    (hinput : jsTrim s.input ≠ "")
    (hresp : settlement env s = .ok { data := .obj fields })
    (hv : fields.lookup "citations" = some v) :
    (submit env s).messages = s.messages ++
      [userMessage s.input,
       .obj [("type", .str "bot"), ("content", (fields.lookup "text").getD .undefined),
             ("citations", if truthy v then v else .arr [])]] ∧
    (tryBlock env (settlement env s)).2 = none := by
  have hg := (passesGuard_iff s).mpr hinput
  rw [submit_of_object env s fields hg hresp, hresp,
    tryBlock_of_value env (.obj fields) (by simp) (by simp)]
  simp [hv, botResponse, jsOr]

/-- A submission answered with `citations: null`. -/
theorem citations_default_when_falsy_scenario :
    (submit (answering nullCitationsAnswer) (typedState "Where?")).messages = [] ++
      [userMessage "Where?",
       .obj [("type", .str "bot"), ("content", .str "See the manual"),
             ("citations", .arr [])]] :=
  (citations_default_when_falsy (answering nullCitationsAnswer) (typedState "Where?")
    [("conversationId", .str "c4"), ("text", .str "See the manual"), ("citations", .null)]
    .null (by decide) rfl rfl).1

/-! ## Transport function -/

/-- C9: `sendChatMessage(query, conversationId, userId)` issues exactly one
POST, with body `{query, conversationId, userId}`; when the POST resolves it
returns the response body as it is, and when the POST is rejected it throws
the error it caught. -/
theorem sendChatMessage_contract (url : JVal)
    (axiosPost : JVal → JVal → Except JsError Response)
    (query conversationId userId : JVal) :
    (sendChatMessage url axiosPost query conversationId userId).1.filter Effect.isPost =
      [.post url (.obj [("query", query), ("conversationId", conversationId),
                        ("userId", userId)])] ∧
    (∀ response,
      axiosPost url (.obj [("query", query), ("conversationId", conversationId),
                           ("userId", userId)]) = .ok response →
      (sendChatMessage url axiosPost query conversationId userId).2 = .ok response.data) ∧
    (∀ error,
      axiosPost url (.obj [("query", query), ("conversationId", conversationId),
                           ("userId", userId)]) = .error error →
      (sendChatMessage url axiosPost query conversationId userId).2 = .error error) := by
  unfold sendChatMessage
  cases h : axiosPost url (.obj [("query", query), ("conversationId", conversationId),
                                 ("userId", userId)]) with
  | ok response =>
    refine ⟨by simp [h, Effect.isPost], ?_, ?_⟩
    · intro r hr
      simp only [h] at hr ⊢
      cases hr
      rfl
    · intro e he
      simp [h] at he
  | error error =>
    refine ⟨by simp [h, Effect.isPost], ?_, ?_⟩
    · intro r hr
      simp [h] at hr
    · intro e he
      simp only [h] at he ⊢
      cases he
      rfl

/-- The transport function on a resolving and on a rejecting service. -/
theorem sendChatMessage_contract_scenario :
    (sendChatMessage (.str "https://qa.example/chat") (answering pressureAnswer).axiosPost
      (.str "q") .null (.str "user-1")).2 = .ok pressureAnswer ∧
    (sendChatMessage (.str "https://qa.example/chat") (rejecting networkError).axiosPost
      (.str "q") .null (.str "user-1")).2 = .error networkError :=
  ⟨(sendChatMessage_contract (.str "https://qa.example/chat")
      (answering pressureAnswer).axiosPost (.str "q") .null (.str "user-1")).2.1
      { data := pressureAnswer } rfl,
   (sendChatMessage_contract (.str "https://qa.example/chat")
      (rejecting networkError).axiosPost (.str "q") .null (.str "user-1")).2.2
      networkError rfl⟩

/-! ## Effects after the await -/

theorem catchBlock_effects (error : JsError) :
    ∀ e ∈ catchBlock error, e.isPost = false ∧ e.replacesMessages = false := by
  obtain ⟨message, response⟩ := error
  cases response with
  | none =>
    intro e he
    simp [catchBlock] at he
    rcases he with he | he <;> subst he <;> exact ⟨rfl, rfl⟩
  | some p =>
    intro e he
    simp [catchBlock] at he
    rcases he with he | he | he | he <;> subst he <;> exact ⟨rfl, rfl⟩

theorem handleSubmitAfter_effects (env : Env) (settled : Except JsError Response) :
    ∀ e ∈ handleSubmitAfter env settled, e.isPost = false ∧ e.replacesMessages = false := by
  intro e he
  cases settled with
  | error e0 =>
    rw [handleSubmitAfter_error] at he
    rcases List.mem_append.mp he with h | h
    · exact catchBlock_effects e0 e h
    · simp [finallyBlock] at h
      subst h
      exact ⟨rfl, rfl⟩
  | ok response =>
    obtain ⟨data⟩ := response
    by_cases hn : data = .null ∨ data = .undefined
    · simp only [handleSubmitAfter, tryBlock_of_nullish env data hn] at he
      rcases List.mem_append.mp he with h | h
      · rcases List.mem_append.mp h with h | h
        · simp at h
          subst h
          exact ⟨rfl, rfl⟩
        · exact catchBlock_effects _ e h
      · simp [finallyBlock] at h
        subst h
        exact ⟨rfl, rfl⟩
    · have hnull : data ≠ .null := fun h => hn (Or.inl h)
      have hundef : data ≠ .undefined := fun h => hn (Or.inr h)
      simp only [handleSubmitAfter, tryBlock_of_value env data hnull hundef] at he
      simp [finallyBlock] at he
      rcases he with h | h | h | h <;> subst h <;> exact ⟨rfl, rfl⟩

theorem handleSubmitRest_effects (env : Env) (r : State) :
    ∀ e ∈ handleSubmitRest env r, e.isPost = false ∧ e.replacesMessages = false := by
  intro e he
  unfold handleSubmitRest at he
  split at he
  · simp at he
  · exact handleSubmitAfter_effects env _ e he

/-! ## Append-only message list -/

theorem step_messages_grow (s : State) (e : Effect) (h : e.replacesMessages = false) :
    s.messages <+: (step s e).messages := by
  cases e with
  | setState u =>
    cases u with
    | setMessages value => simp [Effect.replacesMessages] at h
    | appendMessage message => exact List.prefix_append _ _
    | _ => exact List.prefix_refl _
  | _ => exact List.prefix_refl _

theorem appendOnly_append (a b : List Effect) :
    ∀ s : State, AppendOnly s (a ++ b) ↔ AppendOnly s a ∧ AppendOnly (commit s a) b := by
  induction a with
  | nil =>
    intro s
    simp [AppendOnly, commit]
  | cons e a ih =>
    intro s
    have h := ih (step s e)
    simp only [commit] at h
    show (s.messages <+: (step s e).messages ∧ AppendOnly (step s e) (a ++ b)) ↔
      (s.messages <+: (step s e).messages ∧ AppendOnly (step s e) a) ∧
        AppendOnly (List.foldl step (step s e) a) b
    rw [h, and_assoc]

theorem appendOnly_of_no_replace (l : List Effect) :
    ∀ s : State, (∀ e ∈ l, e.replacesMessages = false) → AppendOnly s l := by
  induction l with
  | nil =>
    intro s _
    trivial
  | cons e l ih =>
    intro s h
    exact ⟨step_messages_grow s e (h e (List.mem_cons_self e l)),
      ih (step s e) fun x hx => h x (List.mem_cons_of_mem e hx)⟩

/-- The synchronous part of `handleSubmit` run from render `r` on a state
whose messages are a prefix of the list it stores. -/
theorem appendOnly_handleSubmitBefore (env : Env) (r s : State)
    (h : s.messages <+: r.messages ++ [userMessage r.input]) :
    AppendOnly s (handleSubmitBefore env r) ∧
    (commit s (handleSubmitBefore env r)).messages <+: r.messages ++ [userMessage r.input] := by
  unfold handleSubmitBefore
  split
  · exact ⟨⟨List.prefix_refl _, trivial⟩, h⟩
  · refine ⟨⟨List.prefix_refl _, h, List.prefix_refl _, List.prefix_refl _,
      List.prefix_refl _, List.prefix_refl _, trivial⟩, List.prefix_refl _⟩

/-- C10: the message list only grows.  Along one `handleSubmit` run, along an
input change, and along two `handleSubmit` runs started from the same render
(the second one starting before the first one has resumed from its `await`,
the two then resuming in either order), the message list before each setter
call is a prefix of the message list after it. -/
theorem messages_append_only (envA envB : Env) (r : State) (value : String) :
    AppendOnly r (handleSubmit envA r) ∧
    AppendOnly r (handleChange value) ∧
    AppendOnly r (handleSubmitBefore envA r ++ handleSubmitBefore envB r ++
      handleSubmitRest envA r ++ handleSubmitRest envB r) ∧
    AppendOnly r (handleSubmitBefore envA r ++ handleSubmitBefore envB r ++
      handleSubmitRest envB r ++ handleSubmitRest envA r) := by
  have hA := appendOnly_handleSubmitBefore envA r r (List.prefix_append _ _)
  have hB := appendOnly_handleSubmitBefore envB r (commit r (handleSubmitBefore envA r)) hA.2
  have restA := fun s => appendOnly_of_no_replace (handleSubmitRest envA r) s
    fun e he => (handleSubmitRest_effects envA r e he).2
  have restB := fun s => appendOnly_of_no_replace (handleSubmitRest envB r) s
    fun e he => (handleSubmitRest_effects envB r e he).2
  refine ⟨?_, ⟨List.prefix_refl _, trivial⟩, ?_, ?_⟩
  · exact (appendOnly_append _ _ r).mpr ⟨hA.1, restA _⟩
  · rw [appendOnly_append, appendOnly_append, appendOnly_append]
    exact ⟨⟨⟨hA.1, hB.1⟩, restA _⟩, restB _⟩
  · rw [appendOnly_append, appendOnly_append, appendOnly_append]
    exact ⟨⟨⟨hA.1, hB.1⟩, restB _⟩, restA _⟩

/-! ## Echo of the conversation id -/

theorem exchanges_of_no_post (env : Env) (l : List Effect)
    (h : ∀ e ∈ l, e.isPost = false) : exchanges env l = [] := by
  induction l with
  | nil => rfl
  | cons e l ih =>
    have hl := ih fun x hx => h x (List.mem_cons_of_mem e hx)
    have he := h e (List.mem_cons_self e l)
    cases e with
    | post url body => simp [Effect.isPost] at he
    | _ => simpa [exchanges] using hl

theorem exchanges_append (env : Env) (a b : List Effect) :
    exchanges env (a ++ b) = exchanges env a ++ exchanges env b := by
  induction a with
  | nil => rfl
  | cons e a ih =>
    cases e <;> simp [exchanges, ih]

theorem exchanges_handleSubmit_of_guard (env : Env) (s : State) (h : passesGuard s = true) :
    exchanges env (handleSubmit env s) =
      [(requestBody env.now s.input s.conversationId, settlement env s)] := by
  rw [handleSubmit_of_guard env s h, exchanges_append,
    exchanges_of_no_post env (handleSubmitAfter env (settlement env s))
      fun e he => (handleSubmitAfter_effects env _ e he).1]
  rfl

theorem returnedConversationId_of_value (data : JVal)
    (hnull : data ≠ .null) (hundef : data ≠ .undefined) :
    returnedConversationId (.ok { data := data }) =
      some ((data.field? "conversationId").getD .undefined) := by
  cases data <;> first | rfl | exact absurd rfl hnull | exact absurd rfl hundef

/-- The conversation id held after a completed submission that passed the
guard. -/
theorem submit_conversationId (env : Env) (s : State) (h : passesGuard s = true) :
    (submit env s).conversationId =
      (returnedConversationId (settlement env s)).getD s.conversationId := by
  cases hs : settlement env s with
  | error e =>
    rw [submit_of_rejected env s e h hs]
    rfl
  | ok response =>
    obtain ⟨data⟩ := response
    by_cases hn : data = .null ∨ data = .undefined
    · have ht : (tryBlock env (settlement env s)).2 =
          some (env.typeError data "conversationId") := by
        rw [hs, tryBlock_of_nullish env data hn]
      rw [submit_of_thrown env s _ h ht]
      rcases hn with hn | hn <;> subst hn <;> rfl
    · have hnull : data ≠ .null := fun h => hn (Or.inl h)
      have hundef : data ≠ .undefined := fun h => hn (Or.inr h)
      rw [submit_of_value env s data h hs hnull hundef,
        returnedConversationId_of_value data hnull hundef]
      rfl

theorem expectedEchoFrom_cons (held : JVal) (x : JVal × Except JsError Response)
    (earlier : List (JVal × Except JsError Response)) :
    expectedEchoFrom held (x :: earlier) =
      expectedEchoFrom ((returnedConversationId x.2).getD held) earlier := by
  unfold expectedEchoFrom
  rw [List.reverse_cons, List.filterMap_append, List.head?_append]
  cases (List.filterMap (fun x => returnedConversationId x.2) earlier.reverse).head? with
  | some c => rfl
  | none =>
    cases hx : returnedConversationId x.2 with
    | some c => simp [List.filterMap, hx]
    | none => simp [List.filterMap, hx]

/-- The echo property from an arbitrary starting state. -/
theorem wire_echo (xs : List Submission) :
    ∀ (s : State) (earlier later : List (JVal × Except JsError Response))
      (body : JVal) (settled : Except JsError Response),
      wire s xs = earlier ++ (body, settled) :: later →
      body.field? "conversationId" = some (expectedEchoFrom s.conversationId earlier) := by
  induction xs with
  | nil =>
    intro s earlier later body settled h
    simp [wire] at h
  | cons x xs ih =>
    intro s earlier later body settled h
    cases hg : passesGuard (commit s (handleChange x.typed)) with
    | false =>
      have hturn : turn s x = commit s (handleChange x.typed) :=
        submit_of_not_guard x.env _ hg
      rw [wire, handleSubmit_of_not_guard x.env _ hg, hturn] at h
      simp only [exchanges, List.nil_append] at h
      exact ih (commit s (handleChange x.typed)) earlier later body settled h
    | true =>
      rw [wire, exchanges_handleSubmit_of_guard x.env _ hg] at h
      cases earlier with
      | nil =>
        simp only [List.nil_append, List.singleton_append, List.cons.injEq,
          Prod.mk.injEq] at h
        rw [← h.1.1]
        rfl
      | cons e earlier =>
        simp only [List.cons_append, List.singleton_append, List.cons.injEq] at h
        have hrec := ih _ earlier later body settled h.2
        rw [hrec, expectedEchoFrom_cons, ← h.1]
        have hc : (turn s x).conversationId =
            (returnedConversationId (settlement x.env (commit s (handleChange x.typed)))).getD
              s.conversationId := submit_conversationId x.env _ hg
        rw [hc]

/-- C8: over any sequence of completed submissions from the initial state,
the `conversationId` field of each request body is `null` when no earlier
submission succeeded and otherwise the conversation id returned by the most
recent earlier successful response; rejected requests, responses that could
not be read and blank submissions in between leave the echoed value alone. -/
theorem conversationId_echo (xs : List Submission)
    (earlier later : List (JVal × Except JsError Response))
    (body : JVal) (settled : Except JsError Response)
    (h : wire initialState xs = earlier ++ (body, settled) :: later) :
    body.field? "conversationId" = some (expectedEcho earlier) :=
  wire_echo xs initialState earlier later body settled h

/-- The last request of `fourTurns` echoes the id of the first answer, across
the blank and the rejected turn. -/
theorem conversationId_echo_scenario :
    (requestBody 1700000000000 "Retry" (.str "c1")).field? "conversationId" =
      some (expectedEcho
        [(requestBody 1700000000000 "What is the max pressure rating?" .null,
          .ok { data := pressureAnswer }),
         (requestBody 1700000000000 "And the minimum?" (.str "c1"),
          .error networkError)]) :=
  conversationId_echo fourTurns
    [(requestBody 1700000000000 "What is the max pressure rating?" .null,
      .ok { data := pressureAnswer }),
     (requestBody 1700000000000 "And the minimum?" (.str "c1"), .error networkError)]
    [] (requestBody 1700000000000 "Retry" (.str "c1")) (.ok { data := bareAnswer }) rfl

end Chat
